import Mathlib

/-!
Shallow embedding of the `drupal_editor` package
(`src/projects/shared/drupal-editor-agent/src/drupal_editor/`).

Modelling conventions:
* Python strings are Lean `String`; Python `pat in s` (substring test) is `strIn`.
* Python ints are Lean `Int`.
* `datetime.now()` is passed in as an explicit `now : String` argument.
* The backend boundary (subprocess spawn, Drush transport, JSON parsing of the
  remote script output, browser interaction) is an explicit environment value
  handed to each operation; everything on the Python side of that boundary is
  translated statement by statement from the source.
* The PHP scripts generated by the taxonomy operations run remotely; their
  observable behaviour (the JSON object they print) is translated from the PHP
  text in the source as a function of an abstract remote node state.
-/

namespace DrupalEditor

/-- `pat` occurs as a contiguous run inside `s` (character lists). -/
def listInfix (pat : List Char) : List Char → Bool
  | [] => pat.isPrefixOf []
  | c :: rest => pat.isPrefixOf (c :: rest) || listInfix pat rest

/-- The Python substring containment test `pat in s`. -/
def strIn (pat s : String) : Bool :=
  listInfix pat.toList s.toList

/-- Truthiness of an optional Python string (`None` and `""` are falsy). -/
def truthy : Option String → Bool
  | none => false
  | some s => !s.isEmpty

/-- Python `s.replace(find, repl)` for a non-empty `find`: replace every
non-overlapping occurrence, scanning left to right.  The fuel is the length of
`s`; the Python special behaviour for an empty `find` (inserting `repl` around
every character) is not reproduced, and no claim exercises that case. -/
def pyReplaceAux : Nat → List Char → List Char → List Char → List Char
  | 0, s, _, _ => s
  | _ + 1, [], _, _ => []
  | fuel + 1, c :: rest, find, repl =>
    if find.isPrefixOf (c :: rest) then
      repl ++ pyReplaceAux fuel ((c :: rest).drop find.length) find repl
    else
      c :: pyReplaceAux fuel rest find repl

/-- Python `s.replace(find, repl)` (see `pyReplaceAux`). -/
def pyReplace (s find repl : String) : String :=
  ⟨pyReplaceAux s.toList.length s.toList find.toList repl.toList⟩

/-! ## tracking/changelog.py -/

/-- `ChangeRecord` (tracking/changelog.py): a single change made to the site. -/
structure ChangeRecord where
  timestamp : String
  auth_method : String
  operation : String
  target : String
  field : String
  old_value : String
  new_value : String
  reason : String
  revision_id : Option Int
  revision_url : Option String
  screenshot_path : Option String
  success : Bool
  error : Option String
deriving Repr, DecidableEq

/-- The dictionary produced by `ChangeRecord.to_dict` for JSON serialization. -/
structure RecordDict where
  timestamp : String
  auth_method : String
  operation : String
  target : String
  field : String
  old_value : String
  new_value : String
  reason : String
  revision_id : Option Int
  revision_url : Option String
  screenshot_path : Option String
  success : Bool
  error : Option String
deriving Repr, DecidableEq

/-- `ChangeRecord.to_dict` (tracking/changelog.py, lines 34-50). -/
def ChangeRecord.to_dict (r : ChangeRecord) : RecordDict :=
  { timestamp := r.timestamp
    auth_method := r.auth_method
    operation := r.operation
    target := r.target
    field := r.field
    old_value := if r.old_value.length > 100 then r.old_value.take 100 ++ "..." else r.old_value
    new_value := if r.new_value.length > 100 then r.new_value.take 100 ++ "..." else r.new_value
    reason := r.reason
    revision_id := r.revision_id
    revision_url := r.revision_url
    screenshot_path := r.screenshot_path
    success := r.success
    error := r.error }

/-- `ChangeLog` (tracking/changelog.py): ordered append-only record store. -/
structure ChangeLog where
  records : List ChangeRecord
  session_id : String
deriving Repr, DecidableEq

/-- `ChangeLog.record` (tracking/changelog.py, lines 74-106): build a
`ChangeRecord` stamped with the current time, append it, and return it. -/
def ChangeLog.record (log : ChangeLog) (now : String)
    (auth_method operation target fieldName old_value new_value reason : String)
    (revision_id : Option Int) (revision_url : Option String)
    (screenshot_path : Option String) (success : Bool) (error : Option String) :
    ChangeRecord × ChangeLog :=
  let change : ChangeRecord :=
    { timestamp := now
      auth_method := auth_method
      operation := operation
      target := target
      field := fieldName
      old_value := old_value
      new_value := new_value
      reason := reason
      revision_id := revision_id
      revision_url := revision_url
      screenshot_path := screenshot_path
      success := success
      error := error }
  (change, { log with records := log.records ++ [change] })

/-- `ChangeLog.get_successful` (tracking/changelog.py, lines 108-110). -/
def ChangeLog.get_successful (log : ChangeLog) : List ChangeRecord :=
  log.records.filter (fun r => r.success)

/-- `ChangeLog.get_failed` (tracking/changelog.py, lines 112-114). -/
def ChangeLog.get_failed (log : ChangeLog) : List ChangeRecord :=
  log.records.filter (fun r => !r.success)

/-- The JSON object produced by `ChangeLog.to_json`. -/
structure ChangeLogJson where
  session_id : String
  total_changes : Nat
  successful : Nat
  failed : Nat
  records : List RecordDict
deriving Repr, DecidableEq

/-- `ChangeLog.to_json` (tracking/changelog.py, lines 116-127). -/
def ChangeLog.to_json (log : ChangeLog) : ChangeLogJson :=
  { session_id := log.session_id
    total_changes := log.records.length
    successful := log.get_successful.length
    failed := log.get_failed.length
    records := log.records.map ChangeRecord.to_dict }

/-! ## auth/terminus.py -/

/-- `CommandResult` (auth/terminus.py, lines 22-29). -/
structure CommandResult where
  success : Bool
  stdout : String
  stderr : String
  return_code : Int
deriving Repr, DecidableEq

/-- What one `asyncio.create_subprocess_exec` + `communicate` attempt does:
the process completes with an exit code and output, the `wait_for` times out,
or an exception is raised. -/
inductive SpawnOutcome where
  | completed (returncode : Int) (stdout stderr : String)
  | timedOut
  | raised (msg : String)
deriving Repr, DecidableEq

/-- `TerminusAuth._run_command` (auth/terminus.py, lines 71-113), over an
environment `env` giving the outcome of each successive subprocess spawn and a
cursor `idx` for the next spawn.  Returns the `CommandResult` and the advanced
cursor, so the number of spawns a call consumes is visible. -/
def run_command (env : Nat → SpawnOutcome) (timeout : Nat) (idx : Nat) :
    CommandResult × Nat :=
  match env idx with
  | .completed rc out err =>
    ({ success := rc == 0, stdout := out, stderr := err,
       return_code := if rc == 0 then 0 else rc }, idx + 1)
  | .timedOut =>
    ({ success := false, stdout := "",
       stderr := "Command timed out after " ++ toString timeout ++ "s",
       return_code := -1 }, idx + 1)
  | .raised msg =>
    ({ success := false, stdout := "", stderr := msg, return_code := -1 }, idx + 1)

/-! ## operations/nodes.py -/

/-- `DraftRevision` (operations/nodes.py, lines 24-33). -/
structure DraftRevision where
  nid : Int
  revision_id : Int
  moderation_state : String
  revision_url : String
  success : Bool
  error : Option String
deriving Repr, DecidableEq

/-- Which authentication backend the client holds (`isinstance(self.auth,
TerminusAuth)` versus `PlaywrightAuth`). -/
inductive Backend where
  | terminus
  | playwright
deriving Repr, DecidableEq

/-- The parsed JSON object printed by a generated PHP script: `success`, and
the optional `error` / `message` / `revision_id` / `moderation_state` keys. -/
structure PhpResponse where
  success : Bool
  error : Option String
  message : Option String
  revision_id : Option Int
  moderation_state : Option String
deriving Repr, DecidableEq

/-- Outcome of one `php_eval` round trip as the Python caller observes it:
the Drush call failed (`result.success` false, with its stderr), the stdout
was not valid JSON (`json.loads` raised, with the raw stdout), or a JSON
object was parsed. -/
inductive EvalOutcome where
  | drushFail (stderr : String)
  | badJson (stdout : String)
  | ok (resp : PhpResponse)
deriving Repr, DecidableEq

/-- Environment for one `NodeEditor._via_drush` call: whether `get_node(nid)`
found the node, the outcome of the mutation `php_eval`, and the value of
`get_site_url()`. -/
structure DrushNodeEnv where
  node_found : Bool
  eval : EvalOutcome
  site_url : String
deriving Repr, DecidableEq

/-- `NodeEditor._record_failure` (operations/nodes.py, lines 393-412): one
failure record per changed field. -/
def record_failure (now : String) (auth_method : String) (log : ChangeLog)
    (nid : Int) (changes : List (String × String)) (reason error : String) :
    ChangeLog :=
  changes.foldl
    (fun acc fv =>
      (acc.record now auth_method "update_node" ("node/" ++ toString nid)
        fv.1 "" fv.2 reason none none none false (some error)).2)
    log

/-- `NodeEditor._via_drush` (operations/nodes.py, lines 91-251).  `changes` is
the Python dict in insertion order. -/
def via_drush (env : DrushNodeEnv) (now : String) (log : ChangeLog)
    (nid : Int) (changes : List (String × String)) (reason : String)
    (moderation_state : String) : DraftRevision × ChangeLog :=
  if !env.node_found then
    (⟨nid, 0, "", "", false, some ("Node " ++ toString nid ++ " not found")⟩, log)
  else
    match env.eval with
    | .drushFail stderr =>
      let error_msg := "Drush failed: " ++ stderr
      (⟨nid, 0, "", "", false, some error_msg⟩,
        record_failure now "terminus" log nid changes reason error_msg)
    | .badJson stdout =>
      let error_msg := "Invalid JSON response: " ++ stdout
      (⟨nid, 0, "", "", false, some error_msg⟩,
        record_failure now "terminus" log nid changes reason error_msg)
    | .ok resp =>
      if !resp.success then
        let error_msg := resp.error.getD "Unknown error"
        (⟨nid, 0, "", "", false, some error_msg⟩,
          record_failure now "terminus" log nid changes reason error_msg)
      else
        let revision_id := resp.revision_id.getD 0
        let revision_url := env.site_url ++ "/node/" ++ toString nid ++
          "/revisions/" ++ toString revision_id ++ "/view"
        let log :=
          changes.foldl
            (fun acc fv =>
              (acc.record now "terminus" "update_node" ("node/" ++ toString nid)
                fv.1 "(previous value)" fv.2 reason (some revision_id)
                (some revision_url) none true none).2)
            log
        (⟨nid, revision_id, resp.moderation_state.getD moderation_state,
          revision_url, true, none⟩, log)

/-- What the Playwright page interaction in `_via_browser` does after the
authentication check: an exception is raised somewhere in the `try` block, or
the form is submitted and the page does or does not show a status banner. -/
inductive BrowserOutcome where
  | raised (msg : String)
  | saved (success_message : Bool) (current_url : String) (after_screenshot : String)
deriving Repr, DecidableEq

/-- Environment for one `NodeEditor._via_browser` call. -/
structure BrowserEnv where
  authenticated : Bool
  auth_ok : Bool
  base_url : String
  outcome : BrowserOutcome
deriving Repr, DecidableEq

/-- `NodeEditor._via_browser` (operations/nodes.py, lines 253-391). -/
def via_browser (env : BrowserEnv) (now : String) (log : ChangeLog)
    (nid : Int) (changes : List (String × String)) (reason : String)
    (moderation_state : String) : DraftRevision × ChangeLog :=
  if !env.authenticated && !env.auth_ok then
    (⟨nid, 0, "", "", false, some "Failed to authenticate"⟩, log)
  else
    match env.outcome with
    | .raised msg =>
      (⟨nid, 0, "", "", false, some msg⟩,
        record_failure now "playwright" log nid changes reason msg)
    | .saved success_message current_url after_screenshot =>
      if success_message then
        let log :=
          changes.foldl
            (fun acc fv =>
              (acc.record now "playwright" "update_node" ("node/" ++ toString nid)
                fv.1 "(previous value)" fv.2 reason none (some current_url)
                (some after_screenshot) true none).2)
            log
        (⟨nid, 0, moderation_state, env.base_url ++ "/node/" ++ toString nid,
          true, none⟩, log)
      else
        let error_msg := "No success message found after save"
        (⟨nid, 0, "", "", false, some error_msg⟩,
          record_failure now "playwright" log nid changes reason error_msg)

/-- Environment for `NodeEditor.create_draft_revision`: the backend the client
holds determines which variant runs (operations/nodes.py, lines 64-89). -/
inductive NodeEnv where
  | drush (env : DrushNodeEnv)
  | browser (env : BrowserEnv)
deriving Repr, DecidableEq

/-- `NodeEditor.create_draft_revision` (operations/nodes.py, lines 64-89). -/
def create_draft_revision (env : NodeEnv) (now : String) (log : ChangeLog)
    (nid : Int) (changes : List (String × String)) (reason : String)
    (moderation_state : String) : DraftRevision × ChangeLog :=
  match env with
  | .drush e => via_drush e now log nid changes reason moderation_state
  | .browser e => via_browser e now log nid changes reason moderation_state

/-- `NodeEditor.find_and_replace` (operations/nodes.py, lines 414-477).
`fetch` is the `php_eval` result for the current-value query (used only on the
Terminus branch); `denv` is the environment for the `create_draft_revision`
call made when a replacement goes ahead. -/
def find_and_replace (backend : Backend) (fetch : CommandResult)
    (denv : DrushNodeEnv) (now : String) (log : ChangeLog) (nid : Int)
    (fieldName find replace reason moderation_state : String) :
    DraftRevision × ChangeLog :=
  let current_value :=
    if backend = Backend.terminus then
      if fetch.success then fetch.stdout else ""
    else ""
  if current_value.isEmpty then
    (⟨nid, 0, "", "", false,
      some ("Could not get current value of " ++ fieldName)⟩, log)
  else if !strIn find current_value then
    (⟨nid, 0, "", "", false,
      some ("\x27" ++ find ++ "\x27 not found in " ++ fieldName)⟩, log)
  else
    let new_value := pyReplace current_value find replace
    via_drush denv now log nid [(fieldName, new_value)] reason moderation_state

/-! ## operations/taxonomy.py

The three tag operations generate a PHP script, run it through `php_eval`,
and parse the JSON it prints.  The scripts are translated below as functions
of an abstract remote node state; the transport around them (Drush failure,
unparsable stdout) is a separate environment value. -/

/-- What `$node->save()` does remotely: succeed, leaving the node with a new
revision id and moderation-state value, or throw with a message. -/
inductive SaveOutcome where
  | ok (new_revision_id : Int) (moderation_value : Option String)
  | err (msg : String)
deriving Repr, DecidableEq

/-- Remote state of the loaded node as far as one tag script reads it:
whether it has the requested field and a `moderation_state` field, the
workflow states (none = no workflow), the current `target_id` list of the
field, the current revision id, and what saving would do. -/
structure RemoteNode where
  has_field : Bool
  has_moderation : Bool
  workflow_states : Option (List String)
  current_tags : List Int
  current_revision_id : Int
  save : SaveOutcome
deriving Repr, DecidableEq

/-- Shared failure handling of the three tag scripts
(operations/taxonomy.py): the checks before the tag-specific logic. -/
def tag_script_precheck (node : Option RemoteNode) (field_name : String)
    (target_moderation_state : String) : PhpResponse ⊕ RemoteNode :=
  match node with
  | none => Sum.inl ⟨false, some "Node not found", none, none, none⟩
  | some n =>
    if !n.has_field then
      Sum.inl ⟨false, some ("Field not found: " ++ field_name), none, none, none⟩
    else if !n.has_moderation then
      Sum.inl ⟨false,
        some "Content moderation not enabled for this content type. Enable it in Drupal before applying changes.",
        none, none, none⟩
    else
      match n.workflow_states with
      | none => Sum.inl ⟨false, some "No workflow found for this content type", none, none, none⟩
      | some states =>
        if !states.contains target_moderation_state then
          Sum.inl ⟨false,
            some ("Moderation state \x27" ++ target_moderation_state ++
              "\x27 not found. Available states: " ++ String.intercalate ", " states),
            none, none, none⟩
        else
          Sum.inr n

/-- The save-and-print tail shared by the three tag scripts. -/
def tag_script_save (n : RemoteNode) : PhpResponse :=
  match n.save with
  | .ok rid mod => ⟨true, none, none, some rid, some (mod.getD "unknown")⟩
  | .err msg => ⟨false, some msg, none, none, none⟩

/-- The PHP script generated by `add_tag_to_node`
(operations/taxonomy.py, lines 243-315). -/
def add_tag_php (node : Option RemoteNode) (field_name : String)
    (term_id : Int) (target_moderation_state : String) : PhpResponse :=
  match tag_script_precheck node field_name target_moderation_state with
  | Sum.inl resp => resp
  | Sum.inr n =>
    if n.current_tags.contains term_id then
      ⟨true, none, some "Tag already present", some n.current_revision_id, none⟩
    else
      tag_script_save n

/-- The PHP script generated by `remove_tag_from_node`
(operations/taxonomy.py, lines 429-503). -/
def remove_tag_php (node : Option RemoteNode) (field_name : String)
    (term_id : Int) (target_moderation_state : String) : PhpResponse :=
  match tag_script_precheck node field_name target_moderation_state with
  | Sum.inl resp => resp
  | Sum.inr n =>
    let new_tags := n.current_tags.filter (fun tid => tid != term_id)
    if new_tags.length == n.current_tags.length then
      ⟨true, none, some "Tag not present", some n.current_revision_id, none⟩
    else
      tag_script_save n

/-- The PHP script generated by `replace_tag_on_node`
(operations/taxonomy.py, lines 606-684). -/
def replace_tag_php (node : Option RemoteNode) (field_name : String)
    (old_term_id new_term_id : Int) (target_moderation_state : String) :
    PhpResponse :=
  match tag_script_precheck node field_name target_moderation_state with
  | Sum.inl resp => resp
  | Sum.inr n =>
    if !n.current_tags.contains old_term_id then
      ⟨false, some "Old tag not present on node", none, none, none⟩
    else
      tag_script_save n

/-- Transport outcome of one taxonomy `php_eval` round trip: the Drush call
failed, the stdout was not JSON, or the script ran and its printed JSON was
parsed (so the response is the one the script computes). -/
inductive Transport where
  | drushFail (stderr : String)
  | badJson (stdout : String)
  | delivered
deriving Repr, DecidableEq

/-- `TaxonomyManager.add_tag_to_node` (operations/taxonomy.py, lines 206-390). -/
def add_tag_to_node (backend : Backend) (transport : Transport)
    (node : Option RemoteNode) (site_url now : String) (log : ChangeLog)
    (nid : Int) (field_name : String) (term_id : Int) (reason : String)
    (moderation_state : String) : DraftRevision × ChangeLog :=
  if backend ≠ Backend.terminus then
    (⟨nid, 0, "", "", false, some "add_tag_to_node only supported via Terminus"⟩, log)
  else
    match transport with
    | .drushFail stderr =>
      let error_msg := "Drush failed: " ++ stderr
      let log :=
        (log.record now "terminus" "add_tag_to_node" ("node/" ++ toString nid)
          field_name "" (toString term_id) reason none none none false
          (some error_msg)).2
      (⟨nid, 0, "", "", false, some error_msg⟩, log)
    | .badJson stdout =>
      (⟨nid, 0, "", "", false, some ("Invalid JSON response: " ++ stdout)⟩, log)
    | .delivered =>
      let resp := add_tag_php node field_name term_id moderation_state
      if !resp.success then
        (⟨nid, 0, "", "", false, some (resp.error.getD "Unknown error")⟩, log)
      else
        let revision_id := resp.revision_id.getD 0
        let revision_url := site_url ++ "/node/" ++ toString nid ++
          "/revisions/" ++ toString revision_id ++ "/view"
        let log :=
          (log.record now "terminus" "add_tag_to_node" ("node/" ++ toString nid)
            field_name "" (toString term_id) reason (some revision_id)
            (some revision_url) none true none).2
        (⟨nid, revision_id, resp.moderation_state.getD "", revision_url,
          true, none⟩, log)

/-- `TaxonomyManager.remove_tag_from_node` (operations/taxonomy.py,
lines 392-565). -/
def remove_tag_from_node (backend : Backend) (transport : Transport)
    (node : Option RemoteNode) (site_url now : String) (log : ChangeLog)
    (nid : Int) (field_name : String) (term_id : Int) (reason : String)
    (moderation_state : String) : DraftRevision × ChangeLog :=
  if backend ≠ Backend.terminus then
    (⟨nid, 0, "", "", false, some "remove_tag_from_node only supported via Terminus"⟩, log)
  else
    match transport with
    | .drushFail stderr =>
      (⟨nid, 0, "", "", false, some ("Drush failed: " ++ stderr)⟩, log)
    | .badJson stdout =>
      (⟨nid, 0, "", "", false, some ("Invalid JSON response: " ++ stdout)⟩, log)
    | .delivered =>
      let resp := remove_tag_php node field_name term_id moderation_state
      if !resp.success then
        (⟨nid, 0, "", "", false, some (resp.error.getD "Unknown error")⟩, log)
      else
        let revision_id := resp.revision_id.getD 0
        let revision_url := site_url ++ "/node/" ++ toString nid ++
          "/revisions/" ++ toString revision_id ++ "/view"
        let log :=
          (log.record now "terminus" "remove_tag_from_node" ("node/" ++ toString nid)
            field_name (toString term_id) "" reason (some revision_id)
            (some revision_url) none true none).2
        (⟨nid, revision_id, resp.moderation_state.getD "", revision_url,
          true, none⟩, log)

/-- `TaxonomyManager.replace_tag_on_node` (operations/taxonomy.py,
lines 567-746). -/
def replace_tag_on_node (backend : Backend) (transport : Transport)
    (node : Option RemoteNode) (site_url now : String) (log : ChangeLog)
    (nid : Int) (field_name : String) (old_term_id new_term_id : Int)
    (reason : String) (moderation_state : String) : DraftRevision × ChangeLog :=
  if backend ≠ Backend.terminus then
    (⟨nid, 0, "", "", false, some "replace_tag_on_node only supported via Terminus"⟩, log)
  else
    match transport with
    | .drushFail stderr =>
      (⟨nid, 0, "", "", false, some ("Drush failed: " ++ stderr)⟩, log)
    | .badJson stdout =>
      (⟨nid, 0, "", "", false, some ("Invalid JSON response: " ++ stdout)⟩, log)
    | .delivered =>
      let resp := replace_tag_php node field_name old_term_id new_term_id moderation_state
      if !resp.success then
        (⟨nid, 0, "", "", false, some (resp.error.getD "Unknown error")⟩, log)
      else
        let revision_id := resp.revision_id.getD 0
        let revision_url := site_url ++ "/node/" ++ toString nid ++
          "/revisions/" ++ toString revision_id ++ "/view"
        let log :=
          (log.record now "terminus" "replace_tag_on_node" ("node/" ++ toString nid)
            field_name (toString old_term_id) (toString new_term_id) reason
            (some revision_id) (some revision_url) none true none).2
        (⟨nid, revision_id, resp.moderation_state.getD "", revision_url,
          true, none⟩, log)

/-! ## operations/media.py -/

/-- `MediaUpdate` (operations/media.py, lines 22-29). -/
structure MediaUpdate where
  mid : Int
  success : Bool
  revision_url : Option String
  error : Option String
deriving Repr, DecidableEq

/-- `MediaEditor._record_failure` (operations/media.py, lines 171-189). -/
def media_record_failure (now auth_method : String) (log : ChangeLog)
    (mid : Int) (alt_text reason error : String) : ChangeLog :=
  (log.record now auth_method "update_media" ("media/" ++ toString mid)
    "alt" "" alt_text reason none none none false (some error)).2

/-- `MediaEditor.update_alt_text` (operations/media.py, lines 47-169),
covering both the `_update_via_drush` and `_update_via_browser` branches. -/
def update_alt_text (backend : Backend) (eval : EvalOutcome)
    (site_url now : String) (log : ChangeLog) (mid : Int)
    (alt_text reason : String) : MediaUpdate × ChangeLog :=
  if backend ≠ Backend.terminus then
    (⟨mid, false, none, some "Not implemented"⟩, log)
  else
    match eval with
    | .drushFail stderr =>
      let error := "Drush failed: " ++ stderr
      (⟨mid, false, none, some error⟩,
        media_record_failure now "terminus" log mid alt_text reason error)
    | .badJson stdout =>
      let error := "Invalid response: " ++ stdout
      (⟨mid, false, none, some error⟩,
        media_record_failure now "terminus" log mid alt_text reason error)
    | .ok resp =>
      if !resp.success then
        let error := resp.error.getD "Unknown error"
        (⟨mid, false, none, some error⟩,
          media_record_failure now "terminus" log mid alt_text reason error)
      else
        let revision_url := site_url ++ "/media/" ++ toString mid ++ "/edit"
        let log :=
          (log.record now "terminus" "update_media" ("media/" ++ toString mid)
            "alt" "(previous alt)" alt_text reason none (some revision_url)
            none true none).2
        (⟨mid, true, some revision_url, none⟩, log)

/-! ## cli.py -/

/-- CLI subcommands (cli.py, `main`). -/
inductive Command where
  | updateNode
  | findReplace
  | getNode
  | testAuth
  | summary
deriving Repr, DecidableEq

/-- The `--auth` flag value. -/
inductive AuthChoice where
  | terminus
  | playwright
deriving Repr, DecidableEq

/-- The environment variables `create_client` and `test_auth` read. -/
structure CliEnv where
  pantheon_site : Option String
  pantheon_token : Option String
  drupal_base_url : Option String
  drupal_username : Option String
  drupal_password : Option String
deriving Repr, DecidableEq

/-- `create_client` (cli.py, lines 124-168): `some` of the chosen backend, or
`none` when the required configuration is missing (the caller then exits 1). -/
def create_client (auth_arg : Option AuthChoice) (site_arg : Option String)
    (env : CliEnv) : Option Backend :=
  let site := if truthy site_arg then site_arg else env.pantheon_site
  let use_terminus :=
    auth_arg = some AuthChoice.terminus ||
    (auth_arg = none && truthy site) ||
    (auth_arg = none && truthy env.pantheon_token)
  if use_terminus then
    if !truthy site then none
    else some Backend.terminus
  else if auth_arg = some AuthChoice.playwright || auth_arg = none then
    if truthy env.drupal_base_url && truthy env.drupal_username &&
        truthy env.drupal_password then
      some Backend.playwright
    else none
  else none

/-- The process exit code of one CLI invocation with a recognised subcommand
(cli.py, `run_command` lines 89-122 and `test_auth` lines 171-218): the
mutation subcommands exit 1 when `create_client` returns no client, otherwise
run to completion and exit 0; `test-auth` and `summary` always return
normally (exit 0), whatever they print. -/
def cli_exit (cmd : Command) (auth_arg : Option AuthChoice)
    (site_arg : Option String) (env : CliEnv) : Nat :=
  match cmd with
  | .testAuth => 0
  | .summary => 0
  | _ =>
    match create_client auth_arg site_arg env with
    | none => 1
    | some _ => 0

/-! ## Spec-side definitions used by the theorem statements -/

/-- Stated from the spec wording for `to_dict`: a value of at most 100
characters is serialized unchanged, a longer one is replaced by its first 100
characters followed by an ellipsis marker. -/
def preview_spec (s : String) : String :=
  if s.length ≤ 100 then s else s.take 100 ++ "..."

/-- The records a call starting from `log` appended to produce `log₂`
(the log only ever grows at the end). -/
def appended (log log₂ : ChangeLog) : List ChangeRecord :=
  log₂.records.drop log.records.length

/-- Every record the call appended carries the success flag `ok` that the
call reported. -/
def appended_match (log log₂ : ChangeLog) (ok : Bool) : Prop :=
  ∀ r ∈ appended log log₂, r.success = ok

/-- The result-shape invariant claimed for `DraftRevision` values: the
`success` flag is true exactly when `error` is absent, and a failure carries
revision id 0 and an empty revision URL. -/
def revision_invariant (d : DraftRevision) : Prop :=
  (d.success = true ↔ d.error = none) ∧
  (d.success = false → d.revision_id = 0 ∧ d.revision_url = "")

/-- Stated from the spec wording: no usable backend configuration — no
Terminus site (argument or environment) and no complete Playwright
credential triple. -/
def config_missing (site_arg : Option String) (env : CliEnv) : Bool :=
  !truthy (if truthy site_arg then site_arg else env.pantheon_site) &&
  !(truthy env.drupal_base_url && truthy env.drupal_username &&
    truthy env.drupal_password)

/-! # Theorems -/

/-- Helper: the success/failure filters partition the record list. -/
theorem length_filter_success_add (l : List ChangeRecord) :
    (l.filter (fun r => r.success)).length +
      (l.filter (fun r => !r.success)).length = l.length := by
  induction l with
  | nil => rfl
  | cons r t ih =>
    cases h : r.success <;> simp [List.filter_cons, h] <;> omega

/-- C4: for every `ChangeLog`, the JSON produced by `to_json()` satisfies
`successful + failed = total_changes`, where `total_changes` counts the
records, `successful` the records with the success flag set, and `failed`
those without. -/
theorem C4_to_json_counts (log : ChangeLog) :
    log.to_json.successful + log.to_json.failed = log.to_json.total_changes := by
  simpa [ChangeLog.to_json, ChangeLog.get_successful, ChangeLog.get_failed]
    using length_filter_success_add log.records

/-- C5: for every `ChangeRecord`, the serialized dictionary keeps `old_value`
and `new_value` unchanged when they are at most 100 characters long and
otherwise truncates them to the first 100 characters followed by an ellipsis
marker (`preview_spec`), and serializes every other field unmodified. -/
theorem C5_to_dict_preview (r : ChangeRecord) :
    r.to_dict.old_value = preview_spec r.old_value ∧
    r.to_dict.new_value = preview_spec r.new_value ∧
    r.to_dict.timestamp = r.timestamp ∧
    r.to_dict.auth_method = r.auth_method ∧
    r.to_dict.operation = r.operation ∧
    r.to_dict.target = r.target ∧
    r.to_dict.field = r.field ∧
    r.to_dict.reason = r.reason ∧
    r.to_dict.revision_id = r.revision_id ∧
    r.to_dict.revision_url = r.revision_url ∧
    r.to_dict.screenshot_path = r.screenshot_path ∧
    r.to_dict.success = r.success ∧
    r.to_dict.error = r.error := by
  refine ⟨?_, ?_, rfl, rfl, rfl, rfl, rfl, rfl, rfl, rfl, rfl, rfl, rfl⟩ <;>
    · simp only [ChangeRecord.to_dict, preview_spec]
      rcases Nat.lt_or_ge 100 (String.length _) with h | h
      · rw [if_pos h, if_neg (by omega)]
      · rw [if_neg (by omega), if_pos (by omega)]

/-- C6: with the Playwright (browser) backend active, each of the three tag
operations returns a failure result whose error names the unsupported
operation/backend combination, and touches neither the backend nor the log:
the outcome is a constant independent of the transport and remote state. -/
theorem C6_browser_tag_ops_fail_fast (transport : Transport)
    (node : Option RemoteNode) (site_url now : String) (log : ChangeLog)
    (nid : Int) (field_name : String) (term_id old_term_id new_term_id : Int)
    (reason moderation_state : String) :
    add_tag_to_node Backend.playwright transport node site_url now log nid
        field_name term_id reason moderation_state
      = (⟨nid, 0, "", "", false,
          some "add_tag_to_node only supported via Terminus"⟩, log) ∧
    remove_tag_from_node Backend.playwright transport node site_url now log nid
        field_name term_id reason moderation_state
      = (⟨nid, 0, "", "", false,
          some "remove_tag_from_node only supported via Terminus"⟩, log) ∧
    replace_tag_on_node Backend.playwright transport node site_url now log nid
        field_name old_term_id new_term_id reason moderation_state
      = (⟨nid, 0, "", "", false,
          some "replace_tag_on_node only supported via Terminus"⟩, log) :=
  ⟨rfl, rfl, rfl⟩

/-- C8: one `_run_command` call consumes exactly one subprocess spawn (no
automatic retry), reports success exactly when the process exits with code 0,
and reports a timeout (with the fixed per-call duration in the message) or a
raised error as a failure. -/
theorem C8_run_command (env : Nat → SpawnOutcome) (timeout idx : Nat) :
    ((run_command env timeout idx).2 = idx + 1) ∧
    (∀ rc out err, env idx = SpawnOutcome.completed rc out err →
      (run_command env timeout idx).1.success = (rc == 0)) ∧
    (env idx = SpawnOutcome.timedOut →
      (run_command env timeout idx).1 =
        ⟨false, "", "Command timed out after " ++ toString timeout ++ "s", -1⟩) ∧
    (∀ msg, env idx = SpawnOutcome.raised msg →
      (run_command env timeout idx).1 = ⟨false, "", msg, -1⟩) := by
  refine ⟨?_, ?_, ?_, ?_⟩
  · cases h : env idx <;> simp [run_command, h]
  · intro rc out err h; simp [run_command, h]
  · intro h; simp [run_command, h]
  · intro msg h; simp [run_command, h]

/-- Witness for C8 at a concrete environment: a spawn that exits 0 is a
success, a spawn that exits 2 is not, a timeout yields the timeout failure
result, and each call advances the spawn cursor by exactly one. -/
theorem C8_run_command_witness :
    (run_command (fun _ => SpawnOutcome.completed 0 "out" "") 120 0).2 = 1 ∧
    (run_command (fun _ => SpawnOutcome.completed 0 "out" "") 120 0).1.success = true ∧
    (run_command (fun _ => SpawnOutcome.completed 2 "" "boom") 120 0).1.success = false ∧
    (run_command (fun _ => SpawnOutcome.timedOut) 120 3).1 =
      ⟨false, "", "Command timed out after 120s", -1⟩ := by
  refine ⟨(C8_run_command (fun _ => SpawnOutcome.completed 0 "out" "") 120 0).1, ?_, ?_, ?_⟩
  · exact (C8_run_command (fun _ => SpawnOutcome.completed 0 "out" "") 120 0).2.1 0 "out" "" rfl
  · exact (C8_run_command (fun _ => SpawnOutcome.completed 2 "" "boom") 120 0).2.1 2 "" "boom" rfl
  · exact (C8_run_command (fun _ => SpawnOutcome.timedOut) 120 3).2.2.1 rfl

/-- Helper: every `DraftRevision` out of `_via_drush` satisfies the result
invariant. -/
theorem via_drush_invariant (env : DrushNodeEnv) (now : String) (log : ChangeLog)
    (nid : Int) (changes : List (String × String)) (reason ms : String) :
    revision_invariant (via_drush env now log nid changes reason ms).1 := by
  rcases env with ⟨nf, ev, su⟩
  cases nf
  · simp [via_drush, revision_invariant]
  · cases ev with
    | drushFail stderr => simp [via_drush, revision_invariant]
    | badJson stdout => simp [via_drush, revision_invariant]
    | ok resp =>
      cases h : resp.success <;> simp [via_drush, revision_invariant, h]

/-- Helper: every `DraftRevision` out of `_via_browser` satisfies the result
invariant. -/
theorem via_browser_invariant (env : BrowserEnv) (now : String) (log : ChangeLog)
    (nid : Int) (changes : List (String × String)) (reason ms : String) :
    revision_invariant (via_browser env now log nid changes reason ms).1 := by
  rcases env with ⟨auth, ok, base, outcome⟩
  cases outcome with
  | raised msg =>
    cases auth <;> cases ok <;> simp [via_browser, revision_invariant]
  | saved sm cu shot =>
    cases auth <;> cases ok <;> cases sm <;>
      simp [via_browser, revision_invariant]

/-- Helper: every `DraftRevision` out of `find_and_replace` satisfies the
result invariant. -/
theorem find_and_replace_invariant (backend : Backend) (fetch : CommandResult)
    (denv : DrushNodeEnv) (now : String) (log : ChangeLog) (nid : Int)
    (fieldName find replace reason ms : String) :
    revision_invariant
      (find_and_replace backend fetch denv now log nid fieldName find replace
        reason ms).1 := by
  cases backend with
  | playwright => simp [find_and_replace, revision_invariant, String.isEmpty]
  | terminus =>
    cases hs : fetch.success with
    | false => simp [find_and_replace, revision_invariant, hs, String.isEmpty]
    | true =>
      by_cases he : fetch.stdout.isEmpty = true
      · simp [find_and_replace, revision_invariant, hs, he]
      · by_cases hf2 : strIn find fetch.stdout = true
        · have hrw : find_and_replace Backend.terminus fetch denv now log nid
              fieldName find replace reason ms
              = via_drush denv now log nid
                  [(fieldName, pyReplace fetch.stdout find replace)] reason ms := by
            simp [find_and_replace, hs, he, hf2]
          rw [hrw]
          exact via_drush_invariant denv now log nid _ reason ms
        · simp [find_and_replace, revision_invariant, hs, he, hf2]

/-- Helper: every `DraftRevision` out of `add_tag_to_node` satisfies the
result invariant. -/
theorem add_tag_invariant (backend : Backend) (transport : Transport)
    (node : Option RemoteNode) (site_url now : String) (log : ChangeLog)
    (nid : Int) (field_name : String) (term_id : Int) (reason ms : String) :
    revision_invariant
      (add_tag_to_node backend transport node site_url now log nid field_name
        term_id reason ms).1 := by
  cases backend
  · cases transport with
    | drushFail stderr => simp [add_tag_to_node, revision_invariant]
    | badJson stdout => simp [add_tag_to_node, revision_invariant]
    | delivered =>
      cases h : (add_tag_php node field_name term_id ms).success <;>
        simp [add_tag_to_node, revision_invariant, h]
  · simp [add_tag_to_node, revision_invariant]

/-- Helper: every `DraftRevision` out of `remove_tag_from_node` satisfies the
result invariant. -/
theorem remove_tag_invariant (backend : Backend) (transport : Transport)
    (node : Option RemoteNode) (site_url now : String) (log : ChangeLog)
    (nid : Int) (field_name : String) (term_id : Int) (reason ms : String) :
    revision_invariant
      (remove_tag_from_node backend transport node site_url now log nid
        field_name term_id reason ms).1 := by
  cases backend
  · cases transport with
    | drushFail stderr => simp [remove_tag_from_node, revision_invariant]
    | badJson stdout => simp [remove_tag_from_node, revision_invariant]
    | delivered =>
      cases h : (remove_tag_php node field_name term_id ms).success <;>
        simp [remove_tag_from_node, revision_invariant, h]
  · simp [remove_tag_from_node, revision_invariant]

/-- Helper: every `DraftRevision` out of `replace_tag_on_node` satisfies the
result invariant. -/
theorem replace_tag_invariant (backend : Backend) (transport : Transport)
    (node : Option RemoteNode) (site_url now : String) (log : ChangeLog)
    (nid : Int) (field_name : String) (old_term_id new_term_id : Int)
    (reason ms : String) :
    revision_invariant
      (replace_tag_on_node backend transport node site_url now log nid
        field_name old_term_id new_term_id reason ms).1 := by
  cases backend
  · cases transport with
    | drushFail stderr => simp [replace_tag_on_node, revision_invariant]
    | badJson stdout => simp [replace_tag_on_node, revision_invariant]
    | delivered =>
      cases h : (replace_tag_php node field_name old_term_id new_term_id ms).success <;>
        simp [replace_tag_on_node, revision_invariant, h]
  · simp [replace_tag_on_node, revision_invariant]

/-- C10: every `DraftRevision` returned by `create_draft_revision` (either
backend), `find_and_replace`, or a taxonomy tag operation has its success
flag true exactly when `error` is absent, and on failure carries revision id
0 and an empty revision URL. -/
theorem C10_revision_invariant (nenv : NodeEnv) (backend : Backend)
    (transport : Transport) (node : Option RemoteNode) (fetch : CommandResult)
    (denv : DrushNodeEnv) (site_url now : String) (log : ChangeLog) (nid : Int)
    (changes : List (String × String))
    (fieldName find replace reason ms : String)
    (term_id old_term_id new_term_id : Int) :
    revision_invariant
      (create_draft_revision nenv now log nid changes reason ms).1 ∧
    revision_invariant
      (find_and_replace backend fetch denv now log nid fieldName find replace
        reason ms).1 ∧
    revision_invariant
      (add_tag_to_node backend transport node site_url now log nid fieldName
        term_id reason ms).1 ∧
    revision_invariant
      (remove_tag_from_node backend transport node site_url now log nid
        fieldName term_id reason ms).1 ∧
    revision_invariant
      (replace_tag_on_node backend transport node site_url now log nid
        fieldName old_term_id new_term_id reason ms).1 := by
  refine ⟨?_, find_and_replace_invariant .., add_tag_invariant ..,
    remove_tag_invariant .., replace_tag_invariant ..⟩
  cases nenv with
  | drush e => exact via_drush_invariant e now log nid changes reason ms
  | browser e => exact via_browser_invariant e now log nid changes reason ms

/-- Witness for C10 at concrete inputs: a successful drush revision and a
failing browser-path revision both satisfy the invariant. -/
theorem C10_revision_invariant_witness :
    revision_invariant
      (create_draft_revision
        (NodeEnv.drush ⟨true, EvalOutcome.ok ⟨true, none, none, some 5, none⟩, "https://s"⟩)
        "t" ⟨[], "s"⟩ 9 [("body", "x")] "r" "draft").1 ∧
    revision_invariant
      (find_and_replace Backend.playwright ⟨false, "", "", 1⟩
        ⟨true, EvalOutcome.badJson "?", "https://s"⟩ "t" ⟨[], "s"⟩ 9 "body" "a" "b"
        "r" "draft").1 :=
  ⟨(C10_revision_invariant
      (NodeEnv.drush ⟨true, EvalOutcome.ok ⟨true, none, none, some 5, none⟩, "https://s"⟩)
      Backend.playwright Transport.delivered none ⟨false, "", "", 1⟩
      ⟨true, EvalOutcome.badJson "?", "https://s"⟩ "https://s" "t" ⟨[], "s"⟩ 9
      [("body", "x")] "body" "a" "b" "r" "draft" 1 2 3).1,
   (C10_revision_invariant
      (NodeEnv.drush ⟨true, EvalOutcome.ok ⟨true, none, none, some 5, none⟩, "https://s"⟩)
      Backend.playwright Transport.delivered none ⟨false, "", "", 1⟩
      ⟨true, EvalOutcome.badJson "?", "https://s"⟩ "https://s" "t" ⟨[], "s"⟩ 9
      [("body", "x")] "body" "a" "b" "r" "draft" 1 2 3).2.1⟩

/-- C9: adding a term id that is already present in the current tag list of
the node returns a success result whose revision id is the existing
revision id, unchanged — no new revision is created (the outcome does not
depend on what saving would have produced). -/
theorem C9_add_tag_idempotent (n : RemoteNode) (states : List String)
    (site_url now : String) (log : ChangeLog) (nid : Int) (field_name : String)
    (term_id : Int) (reason moderation_state : String)
    (hf : n.has_field = true) (hm : n.has_moderation = true)
    (hw : n.workflow_states = some states)
    (hs : moderation_state ∈ states)
    (ht : term_id ∈ n.current_tags) :
    ((add_tag_to_node Backend.terminus Transport.delivered (some n) site_url now
        log nid field_name term_id reason moderation_state).1.success = true) ∧
    ((add_tag_to_node Backend.terminus Transport.delivered (some n) site_url now
        log nid field_name term_id reason moderation_state).1.revision_id
          = n.current_revision_id) ∧
    ((add_tag_to_node Backend.terminus Transport.delivered (some n) site_url now
        log nid field_name term_id reason moderation_state).1.error = none) := by
  have hresp : add_tag_php (some n) field_name term_id moderation_state
      = ⟨true, none, some "Tag already present", some n.current_revision_id, none⟩ := by
    simp [add_tag_php, tag_script_precheck, hf, hm, hw, hs, ht]
  simp [add_tag_to_node, hresp]

/-- Witness for C9: a node carrying tag 7 at revision 42, whose save (never
reached) would have produced revision 99, still reports revision 42. -/
theorem C9_add_tag_idempotent_witness :
    ((add_tag_to_node Backend.terminus Transport.delivered
        (some ⟨true, true, some ["draft", "published"], [7, 9], 42,
          SaveOutcome.ok 99 none⟩)
        "https://s" "t" ⟨[], "s"⟩ 3 "field_topics" 7 "r" "draft").1.success = true) ∧
    ((add_tag_to_node Backend.terminus Transport.delivered
        (some ⟨true, true, some ["draft", "published"], [7, 9], 42,
          SaveOutcome.ok 99 none⟩)
        "https://s" "t" ⟨[], "s"⟩ 3 "field_topics" 7 "r" "draft").1.revision_id = 42) :=
  ⟨(C9_add_tag_idempotent
      ⟨true, true, some ["draft", "published"], [7, 9], 42, SaveOutcome.ok 99 none⟩
      ["draft", "published"] "https://s" "t" ⟨[], "s"⟩ 3 "field_topics" 7 "r" "draft"
      rfl rfl rfl (by decide) (by decide)).1,
   (C9_add_tag_idempotent
      ⟨true, true, some ["draft", "published"], [7, 9], 42, SaveOutcome.ok 99 none⟩
      ["draft", "published"] "https://s" "t" ⟨[], "s"⟩ 3 "field_topics" 7 "r" "draft"
      rfl rfl rfl (by decide) (by decide)).2.1⟩

/-- Helper: a fold of record-appending steps appends the mapped records. -/
theorem foldl_records (f : ChangeLog → String × String → ChangeLog)
    (mk : String × String → ChangeRecord)
    (hf : ∀ acc fv, (f acc fv).records = acc.records ++ [mk fv]) :
    ∀ (changes : List (String × String)) (log : ChangeLog),
      (changes.foldl f log).records = log.records ++ changes.map mk := by
  intro changes
  induction changes with
  | nil => intro log; simp
  | cons c t ih =>
    intro log
    simp only [List.foldl_cons, List.map_cons]
    rw [ih, hf]
    simp

/-- Helper: if a call only appended `new`, then `appended` recovers `new`. -/
theorem appended_of_records_eq {log log₂ : ChangeLog} {new : List ChangeRecord}
    (h : log₂.records = log.records ++ new) : appended log log₂ = new := by
  unfold appended
  rw [h]
  exact List.drop_left _ _

/-- Helper: packaging of the two C1 record-bookkeeping facts. -/
theorem c1_pair {log log₂ : ChangeLog} {ok : Bool} {k : Nat}
    (new : List ChangeRecord)
    (ha : appended log log₂ = new)
    (hmatch : ∀ r ∈ new, r.success = ok)
    (hlen : ok = true → new.length = k) :
    appended_match log log₂ ok ∧ (ok = true → (appended log log₂).length = k) := by
  constructor
  · intro r hr
    rw [ha] at hr
    exact hmatch r hr
  · intro h
    rw [ha]
    exact hlen h

/-- Helper: `_record_failure` appends one failure record per changed field. -/
theorem record_failure_records (now am : String) (log : ChangeLog) (nid : Int)
    (changes : List (String × String)) (reason error : String) :
    (record_failure now am log nid changes reason error).records
      = log.records ++ changes.map (fun fv =>
          ⟨now, am, "update_node", "node/" ++ toString nid, fv.1, "", fv.2,
            reason, none, none, none, false, some error⟩) :=
  foldl_records _ _ (fun _ _ => rfl) changes log

/-- Helper: C1 record bookkeeping for `_via_drush`: every appended record
matches the reported flag, and a success appends one record per field. -/
theorem via_drush_c1 (env : DrushNodeEnv) (now : String) (log : ChangeLog)
    (nid : Int) (changes : List (String × String)) (reason ms : String) :
    appended_match log (via_drush env now log nid changes reason ms).2
        (via_drush env now log nid changes reason ms).1.success ∧
    ((via_drush env now log nid changes reason ms).1.success = true →
      (appended log (via_drush env now log nid changes reason ms).2).length
        = changes.length) := by
  rcases env with ⟨nf, ev, su⟩
  cases nf
  · exact c1_pair [] (appended_of_records_eq (by simp [via_drush]))
      (by simp) (by simp [via_drush])
  · cases ev with
    | drushFail stderr =>
      refine c1_pair (changes.map (fun fv =>
          ⟨now, "terminus", "update_node", "node/" ++ toString nid, fv.1, "",
            fv.2, reason, none, none, none, false,
            some ("Drush failed: " ++ stderr)⟩))
        (appended_of_records_eq ?_) ?_ (by simp [via_drush])
      · exact record_failure_records now "terminus" log nid changes reason _
      · intro r hr
        rcases List.mem_map.mp hr with ⟨fv, _, rfl⟩
        simp [via_drush]
    | badJson stdout =>
      refine c1_pair (changes.map (fun fv =>
          ⟨now, "terminus", "update_node", "node/" ++ toString nid, fv.1, "",
            fv.2, reason, none, none, none, false,
            some ("Invalid JSON response: " ++ stdout)⟩))
        (appended_of_records_eq ?_) ?_ (by simp [via_drush])
      · exact record_failure_records now "terminus" log nid changes reason _
      · intro r hr
        rcases List.mem_map.mp hr with ⟨fv, _, rfl⟩
        simp [via_drush]
    | ok resp =>
      cases hres : resp.success
      · refine c1_pair (changes.map (fun fv =>
            ⟨now, "terminus", "update_node", "node/" ++ toString nid, fv.1, "",
              fv.2, reason, none, none, none, false,
              some (resp.error.getD "Unknown error")⟩))
          (appended_of_records_eq ?_) ?_ ?_
        · show (via_drush ⟨true, EvalOutcome.ok resp, su⟩ now log nid changes reason ms).2.records = _
          simp only [via_drush, hres, Bool.not_false, if_true]
          exact record_failure_records now "terminus" log nid changes reason _
        · intro r hr
          rcases List.mem_map.mp hr with ⟨fv, _, rfl⟩
          simp [via_drush, hres]
        · simp [via_drush, hres]
      · refine c1_pair (changes.map (fun fv =>
            ⟨now, "terminus", "update_node", "node/" ++ toString nid, fv.1,
              "(previous value)", fv.2, reason, some (resp.revision_id.getD 0),
              some (su ++ "/node/" ++ toString nid ++ "/revisions/" ++
                toString (resp.revision_id.getD 0) ++ "/view"), none, true, none⟩))
          (appended_of_records_eq ?_) ?_ ?_
        · show (via_drush ⟨true, EvalOutcome.ok resp, su⟩ now log nid changes reason ms).2.records = _
          simp only [via_drush, hres, Bool.not_true, if_false]
          exact foldl_records _
            (fun fv => ⟨now, "terminus", "update_node", "node/" ++ toString nid,
              fv.1, "(previous value)", fv.2, reason, some (resp.revision_id.getD 0),
              some (su ++ "/node/" ++ toString nid ++ "/revisions/" ++
                toString (resp.revision_id.getD 0) ++ "/view"), none, true, none⟩)
            (fun _ _ => rfl) changes log
        · intro r hr
          rcases List.mem_map.mp hr with ⟨fv, _, rfl⟩
          simp [via_drush, hres]
        · intro _
          simp

/-- Helper: C1 record bookkeeping for `_via_browser`. -/
theorem via_browser_c1 (env : BrowserEnv) (now : String) (log : ChangeLog)
    (nid : Int) (changes : List (String × String)) (reason ms : String) :
    appended_match log (via_browser env now log nid changes reason ms).2
        (via_browser env now log nid changes reason ms).1.success ∧
    ((via_browser env now log nid changes reason ms).1.success = true →
      (appended log (via_browser env now log nid changes reason ms).2).length
        = changes.length) := by
  rcases env with ⟨auth, ok, base, outcome⟩
  by_cases hcond : (!auth && !ok) = true
  · have hv : via_browser ⟨auth, ok, base, outcome⟩ now log nid changes reason ms
        = (⟨nid, 0, "", "", false, some "Failed to authenticate"⟩, log) := by
      simp [via_browser, hcond]
    rw [hv]
    exact c1_pair [] (appended_of_records_eq (by simp)) (by simp) (by simp)
  · rcases outcome with msg | ⟨sm, cu, shot⟩
    · have hv : via_browser ⟨auth, ok, base, BrowserOutcome.raised msg⟩ now log
          nid changes reason ms
          = (⟨nid, 0, "", "", false, some msg⟩,
             record_failure now "playwright" log nid changes reason msg) := by
        simp [via_browser, hcond]
      rw [hv]
      refine c1_pair (changes.map (fun fv =>
          ⟨now, "playwright", "update_node", "node/" ++ toString nid, fv.1, "",
            fv.2, reason, none, none, none, false, some msg⟩))
        (appended_of_records_eq
          (record_failure_records now "playwright" log nid changes reason msg))
        ?_ (by simp)
      intro r hr
      rcases List.mem_map.mp hr with ⟨fv, _, rfl⟩
      rfl
    · cases sm
      · have hv : via_browser ⟨auth, ok, base, BrowserOutcome.saved false cu shot⟩
            now log nid changes reason ms
            = (⟨nid, 0, "", "", false, some "No success message found after save"⟩,
               record_failure now "playwright" log nid changes reason
                 "No success message found after save") := by
          simp [via_browser, hcond]
        rw [hv]
        refine c1_pair (changes.map (fun fv =>
            ⟨now, "playwright", "update_node", "node/" ++ toString nid, fv.1, "",
              fv.2, reason, none, none, none, false,
              some "No success message found after save"⟩))
          (appended_of_records_eq
            (record_failure_records now "playwright" log nid changes reason _))
          ?_ (by simp)
        intro r hr
        rcases List.mem_map.mp hr with ⟨fv, _, rfl⟩
        rfl
      · have hv : via_browser ⟨auth, ok, base, BrowserOutcome.saved true cu shot⟩
            now log nid changes reason ms
            = (⟨nid, 0, ms, base ++ "/node/" ++ toString nid, true, none⟩,
               changes.foldl
                 (fun acc fv =>
                   (acc.record now "playwright" "update_node"
                     ("node/" ++ toString nid) fv.1 "(previous value)" fv.2
                     reason none (some cu) (some shot) true none).2)
                 log) := by
          simp [via_browser, hcond]
        rw [hv]
        refine c1_pair (changes.map (fun fv =>
            ⟨now, "playwright", "update_node", "node/" ++ toString nid, fv.1,
              "(previous value)", fv.2, reason, none, some cu, some shot,
              true, none⟩))
          (appended_of_records_eq
            (foldl_records _ _ (fun _ _ => rfl) changes log))
          ?_ ?_
        · intro r hr
          rcases List.mem_map.mp hr with ⟨fv, _, rfl⟩
          rfl
        · intro _
          simp

/-- Helper: C1 record bookkeeping for `find_and_replace`. -/
theorem find_and_replace_c1 (backend : Backend) (fetch : CommandResult)
    (denv : DrushNodeEnv) (now : String) (log : ChangeLog) (nid : Int)
    (fieldName find replace reason ms : String) :
    appended_match log
        (find_and_replace backend fetch denv now log nid fieldName find replace
          reason ms).2
        (find_and_replace backend fetch denv now log nid fieldName find replace
          reason ms).1.success ∧
    ((find_and_replace backend fetch denv now log nid fieldName find replace
        reason ms).1.success = true →
      (appended log
        (find_and_replace backend fetch denv now log nid fieldName find replace
          reason ms).2).length = 1) := by
  cases backend with
  | playwright =>
    have hv : find_and_replace Backend.playwright fetch denv now log nid
        fieldName find replace reason ms
        = (⟨nid, 0, "", "", false,
            some ("Could not get current value of " ++ fieldName)⟩, log) := by
      simp [find_and_replace, String.isEmpty]
    rw [hv]
    exact c1_pair [] (appended_of_records_eq (by simp)) (by simp) (by simp)
  | terminus =>
    cases hs : fetch.success with
    | false =>
      have hv : find_and_replace Backend.terminus fetch denv now log nid
          fieldName find replace reason ms
          = (⟨nid, 0, "", "", false,
              some ("Could not get current value of " ++ fieldName)⟩, log) := by
        simp [find_and_replace, hs, String.isEmpty]
      rw [hv]
      exact c1_pair [] (appended_of_records_eq (by simp)) (by simp) (by simp)
    | true =>
      by_cases he : fetch.stdout.isEmpty = true
      · have hv : find_and_replace Backend.terminus fetch denv now log nid
            fieldName find replace reason ms
            = (⟨nid, 0, "", "", false,
                some ("Could not get current value of " ++ fieldName)⟩, log) := by
          simp [find_and_replace, hs, he]
        rw [hv]
        exact c1_pair [] (appended_of_records_eq (by simp)) (by simp) (by simp)
      · by_cases hf2 : strIn find fetch.stdout = true
        · have hrw : find_and_replace Backend.terminus fetch denv now log nid
              fieldName find replace reason ms
              = via_drush denv now log nid
                  [(fieldName, pyReplace fetch.stdout find replace)] reason ms := by
            simp [find_and_replace, hs, he, hf2]
          rw [hrw]
          simpa using
            via_drush_c1 denv now log nid
              [(fieldName, pyReplace fetch.stdout find replace)] reason ms
        · have hv : find_and_replace Backend.terminus fetch denv now log nid
              fieldName find replace reason ms
              = (⟨nid, 0, "", "", false,
                  some ("\x27" ++ find ++ "\x27 not found in " ++ fieldName)⟩,
                 log) := by
            simp [find_and_replace, hs, he, hf2]
          rw [hv]
          exact c1_pair [] (appended_of_records_eq (by simp)) (by simp) (by simp)

/-- Helper: C1 record bookkeeping for `add_tag_to_node`: the one tag
operation that also records its Drush transport failures. -/
theorem add_tag_c1 (backend : Backend) (transport : Transport)
    (node : Option RemoteNode) (site_url now : String) (log : ChangeLog)
    (nid : Int) (field_name : String) (term_id : Int) (reason ms : String) :
    appended_match log
        (add_tag_to_node backend transport node site_url now log nid field_name
          term_id reason ms).2
        (add_tag_to_node backend transport node site_url now log nid field_name
          term_id reason ms).1.success ∧
    ((add_tag_to_node backend transport node site_url now log nid field_name
        term_id reason ms).1.success = true →
      (appended log
        (add_tag_to_node backend transport node site_url now log nid field_name
          term_id reason ms).2).length = 1) := by
  cases backend with
  | playwright =>
    exact c1_pair [] (appended_of_records_eq (by simp [add_tag_to_node]))
      (by simp) (by simp [add_tag_to_node])
  | terminus =>
    cases transport with
    | drushFail stderr =>
      refine c1_pair
        [⟨now, "terminus", "add_tag_to_node", "node/" ++ toString nid,
          field_name, "", toString term_id, reason, none, none, none, false,
          some ("Drush failed: " ++ stderr)⟩]
        (appended_of_records_eq rfl) ?_ (by simp [add_tag_to_node])
      intro r hr
      rcases List.mem_singleton.mp hr with rfl
      rfl
    | badJson stdout =>
      exact c1_pair [] (appended_of_records_eq (by simp [add_tag_to_node]))
        (by simp) (by simp [add_tag_to_node])
    | delivered =>
      cases hres : (add_tag_php node field_name term_id ms).success
      · have hv : add_tag_to_node Backend.terminus Transport.delivered node
            site_url now log nid field_name term_id reason ms
            = (⟨nid, 0, "", "", false,
                some ((add_tag_php node field_name term_id ms).error.getD
                  "Unknown error")⟩, log) := by
          simp [add_tag_to_node, hres]
        rw [hv]
        exact c1_pair [] (appended_of_records_eq (by simp)) (by simp) (by simp)
      · have hv : add_tag_to_node Backend.terminus Transport.delivered node
            site_url now log nid field_name term_id reason ms
            = (⟨nid, (add_tag_php node field_name term_id ms).revision_id.getD 0,
                (add_tag_php node field_name term_id ms).moderation_state.getD "",
                site_url ++ "/node/" ++ toString nid ++ "/revisions/" ++
                  toString ((add_tag_php node field_name term_id ms).revision_id.getD 0)
                  ++ "/view", true, none⟩,
               (log.record now "terminus" "add_tag_to_node"
                 ("node/" ++ toString nid) field_name "" (toString term_id)
                 reason
                 (some ((add_tag_php node field_name term_id ms).revision_id.getD 0))
                 (some (site_url ++ "/node/" ++ toString nid ++ "/revisions/" ++
                   toString ((add_tag_php node field_name term_id ms).revision_id.getD 0)
                   ++ "/view"))
                 none true none).2) := by
          simp [add_tag_to_node, hres]
        rw [hv]
        refine c1_pair
          [⟨now, "terminus", "add_tag_to_node", "node/" ++ toString nid,
            field_name, "", toString term_id, reason,
            some ((add_tag_php node field_name term_id ms).revision_id.getD 0),
            some (site_url ++ "/node/" ++ toString nid ++ "/revisions/" ++
              toString ((add_tag_php node field_name term_id ms).revision_id.getD 0)
              ++ "/view"), none, true, none⟩]
          (appended_of_records_eq rfl) ?_ (by simp)
        intro r hr
        rcases List.mem_singleton.mp hr with rfl
        rfl

/-- Helper: C1 record bookkeeping for `remove_tag_from_node`: only the
success path appends a record; every failure path appends none. -/
theorem remove_tag_c1 (backend : Backend) (transport : Transport)
    (node : Option RemoteNode) (site_url now : String) (log : ChangeLog)
    (nid : Int) (field_name : String) (term_id : Int) (reason ms : String) :
    appended_match log
        (remove_tag_from_node backend transport node site_url now log nid
          field_name term_id reason ms).2
        (remove_tag_from_node backend transport node site_url now log nid
          field_name term_id reason ms).1.success ∧
    ((remove_tag_from_node backend transport node site_url now log nid
        field_name term_id reason ms).1.success = true →
      (appended log
        (remove_tag_from_node backend transport node site_url now log nid
          field_name term_id reason ms).2).length = 1) := by
  cases backend with
  | playwright =>
    exact c1_pair [] (appended_of_records_eq (by simp [remove_tag_from_node]))
      (by simp) (by simp [remove_tag_from_node])
  | terminus =>
    cases transport with
    | drushFail stderr =>
      exact c1_pair [] (appended_of_records_eq (by simp [remove_tag_from_node]))
        (by simp) (by simp [remove_tag_from_node])
    | badJson stdout =>
      exact c1_pair [] (appended_of_records_eq (by simp [remove_tag_from_node]))
        (by simp) (by simp [remove_tag_from_node])
    | delivered =>
      cases hres : (remove_tag_php node field_name term_id ms).success
      · have hv : remove_tag_from_node Backend.terminus Transport.delivered node
            site_url now log nid field_name term_id reason ms
            = (⟨nid, 0, "", "", false,
                some ((remove_tag_php node field_name term_id ms).error.getD
                  "Unknown error")⟩, log) := by
          simp [remove_tag_from_node, hres]
        rw [hv]
        exact c1_pair [] (appended_of_records_eq (by simp)) (by simp) (by simp)
      · have hv : remove_tag_from_node Backend.terminus Transport.delivered node
            site_url now log nid field_name term_id reason ms
            = (⟨nid, (remove_tag_php node field_name term_id ms).revision_id.getD 0,
                (remove_tag_php node field_name term_id ms).moderation_state.getD "",
                site_url ++ "/node/" ++ toString nid ++ "/revisions/" ++
                  toString ((remove_tag_php node field_name term_id ms).revision_id.getD 0)
                  ++ "/view", true, none⟩,
               (log.record now "terminus" "remove_tag_from_node"
                 ("node/" ++ toString nid) field_name (toString term_id) ""
                 reason
                 (some ((remove_tag_php node field_name term_id ms).revision_id.getD 0))
                 (some (site_url ++ "/node/" ++ toString nid ++ "/revisions/" ++
                   toString ((remove_tag_php node field_name term_id ms).revision_id.getD 0)
                   ++ "/view"))
                 none true none).2) := by
          simp [remove_tag_from_node, hres]
        rw [hv]
        refine c1_pair
          [⟨now, "terminus", "remove_tag_from_node", "node/" ++ toString nid,
            field_name, toString term_id, "", reason,
            some ((remove_tag_php node field_name term_id ms).revision_id.getD 0),
            some (site_url ++ "/node/" ++ toString nid ++ "/revisions/" ++
              toString ((remove_tag_php node field_name term_id ms).revision_id.getD 0)
              ++ "/view"), none, true, none⟩]
          (appended_of_records_eq rfl) ?_ (by simp)
        intro r hr
        rcases List.mem_singleton.mp hr with rfl
        rfl

/-- Helper: C1 record bookkeeping for `replace_tag_on_node`: only the
success path appends a record; every failure path appends none. -/
theorem replace_tag_c1 (backend : Backend) (transport : Transport)
    (node : Option RemoteNode) (site_url now : String) (log : ChangeLog)
    (nid : Int) (field_name : String) (old_term_id new_term_id : Int)
    (reason ms : String) :
    appended_match log
        (replace_tag_on_node backend transport node site_url now log nid
          field_name old_term_id new_term_id reason ms).2
        (replace_tag_on_node backend transport node site_url now log nid
          field_name old_term_id new_term_id reason ms).1.success ∧
    ((replace_tag_on_node backend transport node site_url now log nid
        field_name old_term_id new_term_id reason ms).1.success = true →
      (appended log
        (replace_tag_on_node backend transport node site_url now log nid
          field_name old_term_id new_term_id reason ms).2).length = 1) := by
  cases backend with
  | playwright =>
    exact c1_pair [] (appended_of_records_eq (by simp [replace_tag_on_node]))
      (by simp) (by simp [replace_tag_on_node])
  | terminus =>
    cases transport with
    | drushFail stderr =>
      exact c1_pair [] (appended_of_records_eq (by simp [replace_tag_on_node]))
        (by simp) (by simp [replace_tag_on_node])
    | badJson stdout =>
      exact c1_pair [] (appended_of_records_eq (by simp [replace_tag_on_node]))
        (by simp) (by simp [replace_tag_on_node])
    | delivered =>
      cases hres : (replace_tag_php node field_name old_term_id new_term_id ms).success
      · have hv : replace_tag_on_node Backend.terminus Transport.delivered node
            site_url now log nid field_name old_term_id new_term_id reason ms
            = (⟨nid, 0, "", "", false,
                some ((replace_tag_php node field_name old_term_id new_term_id
                  ms).error.getD "Unknown error")⟩, log) := by
          simp [replace_tag_on_node, hres]
        rw [hv]
        exact c1_pair [] (appended_of_records_eq (by simp)) (by simp) (by simp)
      · have hv : replace_tag_on_node Backend.terminus Transport.delivered node
            site_url now log nid field_name old_term_id new_term_id reason ms
            = (⟨nid,
                (replace_tag_php node field_name old_term_id new_term_id ms).revision_id.getD 0,
                (replace_tag_php node field_name old_term_id new_term_id ms).moderation_state.getD "",
                site_url ++ "/node/" ++ toString nid ++ "/revisions/" ++
                  toString ((replace_tag_php node field_name old_term_id
                    new_term_id ms).revision_id.getD 0) ++ "/view", true, none⟩,
               (log.record now "terminus" "replace_tag_on_node"
                 ("node/" ++ toString nid) field_name (toString old_term_id)
                 (toString new_term_id) reason
                 (some ((replace_tag_php node field_name old_term_id
                   new_term_id ms).revision_id.getD 0))
                 (some (site_url ++ "/node/" ++ toString nid ++ "/revisions/" ++
                   toString ((replace_tag_php node field_name old_term_id
                     new_term_id ms).revision_id.getD 0) ++ "/view"))
                 none true none).2) := by
          simp [replace_tag_on_node, hres]
        rw [hv]
        refine c1_pair
          [⟨now, "terminus", "replace_tag_on_node", "node/" ++ toString nid,
            field_name, toString old_term_id, toString new_term_id, reason,
            some ((replace_tag_php node field_name old_term_id
              new_term_id ms).revision_id.getD 0),
            some (site_url ++ "/node/" ++ toString nid ++ "/revisions/" ++
              toString ((replace_tag_php node field_name old_term_id
                new_term_id ms).revision_id.getD 0) ++ "/view"),
            none, true, none⟩]
          (appended_of_records_eq rfl) ?_ (by simp)
        intro r hr
        rcases List.mem_singleton.mp hr with rfl
        rfl

/-- Helper: C1 record bookkeeping for `update_alt_text`: on the Terminus
backend every path appends exactly one matching record; the browser path
fails without recording. -/
theorem update_alt_text_c1 (backend : Backend) (eval : EvalOutcome)
    (site_url now : String) (log : ChangeLog) (mid : Int)
    (alt_text reason : String) :
    appended_match log
        (update_alt_text backend eval site_url now log mid alt_text reason).2
        (update_alt_text backend eval site_url now log mid alt_text reason).1.success ∧
    ((update_alt_text backend eval site_url now log mid alt_text reason).1.success = true →
      (appended log
        (update_alt_text backend eval site_url now log mid alt_text reason).2).length = 1) := by
  cases backend with
  | playwright =>
    exact c1_pair [] (appended_of_records_eq (by simp [update_alt_text]))
      (by simp) (by simp [update_alt_text])
  | terminus =>
    cases eval with
    | drushFail stderr =>
      refine c1_pair
        [⟨now, "terminus", "update_media", "media/" ++ toString mid, "alt", "",
          alt_text, reason, none, none, none, false,
          some ("Drush failed: " ++ stderr)⟩]
        (appended_of_records_eq rfl) ?_ (by simp [update_alt_text])
      intro r hr
      rcases List.mem_singleton.mp hr with rfl
      rfl
    | badJson stdout =>
      refine c1_pair
        [⟨now, "terminus", "update_media", "media/" ++ toString mid, "alt", "",
          alt_text, reason, none, none, none, false,
          some ("Invalid response: " ++ stdout)⟩]
        (appended_of_records_eq rfl) ?_ (by simp [update_alt_text])
      intro r hr
      rcases List.mem_singleton.mp hr with rfl
      rfl
    | ok resp =>
      cases hres : resp.success
      · have hv : update_alt_text Backend.terminus (EvalOutcome.ok resp)
            site_url now log mid alt_text reason
            = (⟨mid, false, none, some (resp.error.getD "Unknown error")⟩,
               media_record_failure now "terminus" log mid alt_text reason
                 (resp.error.getD "Unknown error")) := by
          simp [update_alt_text, hres]
        rw [hv]
        refine c1_pair
          [⟨now, "terminus", "update_media", "media/" ++ toString mid, "alt",
            "", alt_text, reason, none, none, none, false,
            some (resp.error.getD "Unknown error")⟩]
          (appended_of_records_eq rfl) ?_ (by simp)
        intro r hr
        rcases List.mem_singleton.mp hr with rfl
        rfl
      · have hv : update_alt_text Backend.terminus (EvalOutcome.ok resp)
            site_url now log mid alt_text reason
            = (⟨mid, true, some (site_url ++ "/media/" ++ toString mid ++ "/edit"),
                none⟩,
               (log.record now "terminus" "update_media" ("media/" ++ toString mid)
                 "alt" "(previous alt)" alt_text reason none
                 (some (site_url ++ "/media/" ++ toString mid ++ "/edit"))
                 none true none).2) := by
          simp [update_alt_text, hres]
        rw [hv]
        refine c1_pair
          [⟨now, "terminus", "update_media", "media/" ++ toString mid, "alt",
            "(previous alt)", alt_text, reason, none,
            some (site_url ++ "/media/" ++ toString mid ++ "/edit"), none,
            true, none⟩]
          (appended_of_records_eq rfl) ?_ (by simp)
        intro r hr
        rcases List.mem_singleton.mp hr with rfl
        rfl

/-- C1 counterexample: a `remove_tag_from_node` call whose Drush transport
fails reports a failure to the caller yet appends no `ChangeRecord` at all —
not the exactly-one record the claim requires for every attempted mutation. -/
theorem C1_counterexample :
    ((remove_tag_from_node Backend.terminus (Transport.drushFail "boom") none
        "https://s" "t" ⟨[], "s"⟩ 1 "field_topics" 7 "r" "draft").1.success
      = false) ∧
    ((remove_tag_from_node Backend.terminus (Transport.drushFail "boom") none
        "https://s" "t" ⟨[], "s"⟩ 1 "field_topics" 7 "r" "draft").2.records.length
      = 0) :=
  ⟨rfl, rfl⟩

/-- C1 (amended): every record a mutation operation appends carries the
success flag the call reports, and a call that reports success appends
exactly one record per changed field (one for the single-field operations);
failure paths, however, may append no record at all (taxonomy remove/replace
failures, add-tag parse and response failures, node-not-found, the
find/replace preconditions, and the browser media path append none). -/
theorem C1_amended_record_bookkeeping (nenv : NodeEnv) (backend : Backend)
    (transport : Transport) (node : Option RemoteNode) (fetch : CommandResult)
    (denv : DrushNodeEnv) (eval : EvalOutcome) (site_url now : String)
    (log : ChangeLog) (nid mid : Int) (changes : List (String × String))
    (fieldName find replace alt_text reason ms : String)
    (term_id old_term_id new_term_id : Int) :
    (appended_match log
        (create_draft_revision nenv now log nid changes reason ms).2
        (create_draft_revision nenv now log nid changes reason ms).1.success ∧
      ((create_draft_revision nenv now log nid changes reason ms).1.success = true →
        (appended log
          (create_draft_revision nenv now log nid changes reason ms).2).length
          = changes.length)) ∧
    (appended_match log
        (find_and_replace backend fetch denv now log nid fieldName find replace
          reason ms).2
        (find_and_replace backend fetch denv now log nid fieldName find replace
          reason ms).1.success ∧
      ((find_and_replace backend fetch denv now log nid fieldName find replace
          reason ms).1.success = true →
        (appended log
          (find_and_replace backend fetch denv now log nid fieldName find
            replace reason ms).2).length = 1)) ∧
    (appended_match log
        (add_tag_to_node backend transport node site_url now log nid fieldName
          term_id reason ms).2
        (add_tag_to_node backend transport node site_url now log nid fieldName
          term_id reason ms).1.success ∧
      ((add_tag_to_node backend transport node site_url now log nid fieldName
          term_id reason ms).1.success = true →
        (appended log
          (add_tag_to_node backend transport node site_url now log nid
            fieldName term_id reason ms).2).length = 1)) ∧
    (appended_match log
        (remove_tag_from_node backend transport node site_url now log nid
          fieldName term_id reason ms).2
        (remove_tag_from_node backend transport node site_url now log nid
          fieldName term_id reason ms).1.success ∧
      ((remove_tag_from_node backend transport node site_url now log nid
          fieldName term_id reason ms).1.success = true →
        (appended log
          (remove_tag_from_node backend transport node site_url now log nid
            fieldName term_id reason ms).2).length = 1)) ∧
    (appended_match log
        (replace_tag_on_node backend transport node site_url now log nid
          fieldName old_term_id new_term_id reason ms).2
        (replace_tag_on_node backend transport node site_url now log nid
          fieldName old_term_id new_term_id reason ms).1.success ∧
      ((replace_tag_on_node backend transport node site_url now log nid
          fieldName old_term_id new_term_id reason ms).1.success = true →
        (appended log
          (replace_tag_on_node backend transport node site_url now log nid
            fieldName old_term_id new_term_id reason ms).2).length = 1)) ∧
    (appended_match log
        (update_alt_text backend eval site_url now log mid alt_text reason).2
        (update_alt_text backend eval site_url now log mid alt_text reason).1.success ∧
      ((update_alt_text backend eval site_url now log mid alt_text
          reason).1.success = true →
        (appended log
          (update_alt_text backend eval site_url now log mid alt_text
            reason).2).length = 1)) := by
  refine ⟨?_,
    find_and_replace_c1 backend fetch denv now log nid fieldName find replace reason ms,
    add_tag_c1 backend transport node site_url now log nid fieldName term_id reason ms,
    remove_tag_c1 backend transport node site_url now log nid fieldName term_id reason ms,
    replace_tag_c1 backend transport node site_url now log nid fieldName
      old_term_id new_term_id reason ms,
    update_alt_text_c1 backend eval site_url now log mid alt_text reason⟩
  cases nenv with
  | drush e => exact via_drush_c1 e now log nid changes reason ms
  | browser e => exact via_browser_c1 e now log nid changes reason ms

/-- Witness for the amended C1: a successful concrete `add_tag_to_node`
appends exactly one record, and a successful concrete two-field
`create_draft_revision` appends one record per changed field. -/
theorem C1_amended_record_bookkeeping_witness :
    (appended ⟨[], "s"⟩
      (add_tag_to_node Backend.terminus Transport.delivered
        (some ⟨true, true, some ["draft"], [], 1, SaveOutcome.ok 2 (some "draft")⟩)
        "https://s" "t" ⟨[], "s"⟩ 3 "field_topics" 7 "r" "draft").2).length = 1 ∧
    (appended ⟨[], "s"⟩
      (create_draft_revision
        (NodeEnv.drush ⟨true, EvalOutcome.ok ⟨true, none, none, some 5, none⟩, "https://s"⟩)
        "t" ⟨[], "s"⟩ 9 [("body", "x"), ("title", "y")] "r" "draft").2).length
      = [("body", "x"), ("title", "y")].length :=
  ⟨(C1_amended_record_bookkeeping
      (NodeEnv.drush ⟨true, EvalOutcome.ok ⟨true, none, none, some 5, none⟩, "https://s"⟩)
      Backend.terminus Transport.delivered
      (some ⟨true, true, some ["draft"], [], 1, SaveOutcome.ok 2 (some "draft")⟩)
      ⟨true, "x", "", 0⟩
      ⟨true, EvalOutcome.ok ⟨true, none, none, some 5, none⟩, "https://s"⟩
      (EvalOutcome.ok ⟨true, none, none, some 5, none⟩) "https://s" "t"
      ⟨[], "s"⟩ 3 4 [("body", "x"), ("title", "y")] "field_topics" "a" "b" "alt"
      "r" "draft" 7 8 9).2.2.1.2 (by decide),
   (C1_amended_record_bookkeeping
      (NodeEnv.drush ⟨true, EvalOutcome.ok ⟨true, none, none, some 5, none⟩, "https://s"⟩)
      Backend.terminus Transport.delivered
      (some ⟨true, true, some ["draft"], [], 1, SaveOutcome.ok 2 (some "draft")⟩)
      ⟨true, "x", "", 0⟩
      ⟨true, EvalOutcome.ok ⟨true, none, none, some 5, none⟩, "https://s"⟩
      (EvalOutcome.ok ⟨true, none, none, some 5, none⟩) "https://s" "t"
      ⟨[], "s"⟩ 9 4 [("body", "x"), ("title", "y")] "field_topics" "a" "b" "alt"
      "r" "draft" 7 8 9).1.2 (by decide)⟩

/-- C2 counterexample: with the search text "x" absent from the fetched
current value (the empty string), the call fails not with a "not found"
error but with a could-not-get-value error. -/
theorem C2_counterexample :
    strIn "x" "" = false ∧
    ((find_and_replace Backend.terminus ⟨true, "", "", 0⟩
        ⟨true, EvalOutcome.ok ⟨true, none, none, some 1, none⟩, "https://s"⟩
        "t" ⟨[], "s"⟩ 123 "body" "x" "y" "r" "draft").1.error
      = some "Could not get current value of body") ∧
    strIn "not found" "Could not get current value of body" = false :=
  ⟨rfl, rfl, by decide⟩

/-- C2 (amended): when the fetched current value is non-empty and the search
text is absent from it, `find_and_replace` fails with the "not found" error
and leaves the change log untouched (no mutation reaches the backend); when
the fetch fails or yields an empty value, it also fails without mutating,
but with the could-not-get-value error. -/
theorem C2_amended_not_found (fetch : CommandResult) (denv : DrushNodeEnv)
    (now : String) (log : ChangeLog) (nid : Int)
    (fieldName find replace reason ms : String) :
    (fetch.success = true → fetch.stdout ≠ "" → strIn find fetch.stdout = false →
      find_and_replace Backend.terminus fetch denv now log nid fieldName find
          replace reason ms
        = (⟨nid, 0, "", "", false,
            some ("\x27" ++ find ++ "\x27 not found in " ++ fieldName)⟩, log)) ∧
    ((fetch.success = false ∨ fetch.stdout = "") →
      find_and_replace Backend.terminus fetch denv now log nid fieldName find
          replace reason ms
        = (⟨nid, 0, "", "", false,
            some ("Could not get current value of " ++ fieldName)⟩, log)) := by
  constructor
  · intro hs hne hnotin
    have he : fetch.stdout.isEmpty = false := by
      rcases h : fetch.stdout.isEmpty with _ | _
      · rfl
      · exact absurd ((String.isEmpty_iff _).mp h) hne
    simp [find_and_replace, hs, he, hnotin]
  · intro h
    rcases h with h | h
    · simp [find_and_replace, h, String.isEmpty]
    · simp [find_and_replace, h, String.isEmpty]

/-- Witness for the amended C2: the search text "zzz" is absent from the
fetched value "hello world" and produces the "not found" failure with the
log untouched; a failed fetch produces the could-not-get-value failure. -/
theorem C2_amended_not_found_witness :
    find_and_replace Backend.terminus ⟨true, "hello world", "", 0⟩
        ⟨true, EvalOutcome.ok ⟨true, none, none, some 1, none⟩, "https://s"⟩
        "t" ⟨[], "s"⟩ 5 "body" "zzz" "yyy" "r" "draft"
      = (⟨5, 0, "", "", false, some "\x27zzz\x27 not found in body"⟩, ⟨[], "s"⟩) ∧
    find_and_replace Backend.terminus ⟨false, "", "boom", 1⟩
        ⟨true, EvalOutcome.ok ⟨true, none, none, some 1, none⟩, "https://s"⟩
        "t" ⟨[], "s"⟩ 5 "body" "zzz" "yyy" "r" "draft"
      = (⟨5, 0, "", "", false, some "Could not get current value of body"⟩,
         ⟨[], "s"⟩) :=
  ⟨(C2_amended_not_found ⟨true, "hello world", "", 0⟩
      ⟨true, EvalOutcome.ok ⟨true, none, none, some 1, none⟩, "https://s"⟩
      "t" ⟨[], "s"⟩ 5 "body" "zzz" "yyy" "r" "draft").1 rfl (by decide) (by decide),
   (C2_amended_not_found ⟨false, "", "boom", 1⟩
      ⟨true, EvalOutcome.ok ⟨true, none, none, some 1, none⟩, "https://s"⟩
      "t" ⟨[], "s"⟩ 5 "body" "zzz" "yyy" "r" "draft").2 (Or.inl rfl)⟩

/-- C3 counterexample: in the successful remote-CLI scenario (replace
"recieve" with "receive" on field body of node 123) the single appended
record has `old_value` equal to the constant placeholder "(previous value)" — it
contains neither the search text nor the fetched old field text, so it does
not reflect the literal strings involved in the change. -/
theorem C3_counterexample :
    ((find_and_replace Backend.terminus ⟨true, "Please recieve our regards", "", 0⟩
        ⟨true, EvalOutcome.ok ⟨true, none, none, some 5, some "ava_suggestion"⟩,
          "https://ex.am"⟩
        "t" ⟨[], "s"⟩ 123 "body" "recieve" "receive" "r" "ava_suggestion").2.records.map
          (fun r => r.old_value)) = ["(previous value)"] ∧
    strIn "recieve" "(previous value)" = false ∧
    strIn "Please recieve our regards" "(previous value)" = false := by
  refine ⟨by decide, by decide, by decide⟩

/-- C3 (amended): the successful remote-CLI scenario appends exactly one
success record; its `new_value` is the full post-replacement field text
(containing the literal replacement "receive"), its `old_value` is the
constant placeholder "(previous value)" rather than the literal old text,
and the review URL of the result is non-empty. -/
theorem C3_amended_scenario :
    ((find_and_replace Backend.terminus ⟨true, "Please recieve our regards", "", 0⟩
        ⟨true, EvalOutcome.ok ⟨true, none, none, some 5, some "ava_suggestion"⟩,
          "https://ex.am"⟩
        "t" ⟨[], "s"⟩ 123 "body" "recieve" "receive" "r" "ava_suggestion").1.success
      = true) ∧
    ((find_and_replace Backend.terminus ⟨true, "Please recieve our regards", "", 0⟩
        ⟨true, EvalOutcome.ok ⟨true, none, none, some 5, some "ava_suggestion"⟩,
          "https://ex.am"⟩
        "t" ⟨[], "s"⟩ 123 "body" "recieve" "receive" "r" "ava_suggestion").2.records
      = [⟨"t", "terminus", "update_node", "node/123", "body",
          "(previous value)", "Please receive our regards", "r", some 5,
          some "https://ex.am/node/123/revisions/5/view", none, true, none⟩]) ∧
    ((find_and_replace Backend.terminus ⟨true, "Please recieve our regards", "", 0⟩
        ⟨true, EvalOutcome.ok ⟨true, none, none, some 5, some "ava_suggestion"⟩,
          "https://ex.am"⟩
        "t" ⟨[], "s"⟩ 123 "body" "recieve" "receive" "r" "ava_suggestion").1.revision_url
      = "https://ex.am/node/123/revisions/5/view") ∧
    ((find_and_replace Backend.terminus ⟨true, "Please recieve our regards", "", 0⟩
        ⟨true, EvalOutcome.ok ⟨true, none, none, some 5, some "ava_suggestion"⟩,
          "https://ex.am"⟩
        "t" ⟨[], "s"⟩ 123 "body" "recieve" "receive" "r" "ava_suggestion").1.revision_url
      ≠ "") := by
  refine ⟨by decide, by decide, by decide, by decide⟩

/-- C7 counterexample: with every backend credential missing, the `test-auth`
subcommand reports the missing configuration but the process exits 0, not
the claimed 1. -/
theorem C7_counterexample :
    config_missing none ⟨none, none, none, none, none⟩ = true ∧
    cli_exit Command.testAuth none none ⟨none, none, none, none, none⟩ = 0 :=
  ⟨rfl, rfl⟩

/-- C7 (amended): with required backend configuration missing, the mutation
and query subcommands (`update-node`, `find-replace`, `get-node`) exit 1;
when a client can be created they run to completion and exit 0; `test-auth`
and `summary`, however, always exit 0, even with the configuration missing. -/
theorem C7_amended_exit_codes (auth_arg : Option AuthChoice)
    (site_arg : Option String) (env : CliEnv) :
    (config_missing site_arg env = true →
      cli_exit Command.updateNode auth_arg site_arg env = 1 ∧
      cli_exit Command.findReplace auth_arg site_arg env = 1 ∧
      cli_exit Command.getNode auth_arg site_arg env = 1) ∧
    ((create_client auth_arg site_arg env).isSome = true →
      cli_exit Command.updateNode auth_arg site_arg env = 0 ∧
      cli_exit Command.findReplace auth_arg site_arg env = 0 ∧
      cli_exit Command.getNode auth_arg site_arg env = 0) ∧
    cli_exit Command.testAuth auth_arg site_arg env = 0 ∧
    cli_exit Command.summary auth_arg site_arg env = 0 := by
  refine ⟨?_, ?_, rfl, rfl⟩
  · intro h
    simp only [config_missing, Bool.and_eq_true, Bool.not_eq_true'] at h
    obtain ⟨h1, h2⟩ := h
    have hcc : create_client auth_arg site_arg env = none := by
      rcases auth_arg with _ | ac
      · cases ht : truthy env.pantheon_token <;>
          simp [create_client, h1, h2, ht]
      · cases ac
        · simp [create_client, h1]
        · simp [create_client, h1, h2]
    simp [cli_exit, hcc]
  · intro h
    rcases Option.isSome_iff_exists.mp h with ⟨b, hb⟩
    simp [cli_exit, hb]

/-- Witness for the amended C7: with everything unset `update-node` exits 1
while `test-auth` exits 0; with a Terminus site argument `update-node`
exits 0. -/
theorem C7_amended_exit_codes_witness :
    cli_exit Command.updateNode none none ⟨none, none, none, none, none⟩ = 1 ∧
    cli_exit Command.updateNode none (some "mysite")
      ⟨none, none, none, none, none⟩ = 0 ∧
    cli_exit Command.testAuth none none ⟨none, none, none, none, none⟩ = 0 :=
  ⟨((C7_amended_exit_codes none none ⟨none, none, none, none, none⟩).1
      (by decide)).1,
   ((C7_amended_exit_codes none (some "mysite")
      ⟨none, none, none, none, none⟩).2.1 (by decide)).1,
   (C7_amended_exit_codes none none ⟨none, none, none, none, none⟩).2.2.1⟩

end DrupalEditor
